import Mathlib

/-!
Shallow embedding of `src/src/rgw/driver/rados/rgw_remote.cc` (Ceph RGW's
remote-zone connection directory, `RGWRemoteCtl`) together with proofs of
the specified properties.

External collaborators (the zone topology service `svc.zone`, the user /
credential store `ctl.user`, and the REST connection implementation
`RGWRESTConn::get_url`) are modelled as opaque parameters, exactly at the
narrow interfaces the source calls them through.  Connection handles
(`RGWRESTConn *` pointers in the source) are modelled as arena handles: a
fresh allocation id paired with the value the connection was constructed
from, so that pointer identity and pointer aliasing are expressible.
-/

namespace RGWRemote

/-- A zone id (`rgw_zone_id` wraps a `std::string`). -/
abbrev rgw_zone_id := String

/-- A user identity (`rgw_user`, rendered to a string for lookup). -/
abbrev rgw_user := String

/-- `RGWAccessKey`: an access-key id and its secret. -/
structure RGWAccessKey where
  id : String
  key : String
deriving DecidableEq, Repr

/-- `RGWUserInfo`, restricted to the fields `get_access_key` reads:
the user id and the ordered access-key map (`info.access_keys`);
`access_keys.begin()` is the head of the list. -/
structure RGWUserInfo where
  user_id : rgw_user
  access_keys : List (String × RGWAccessKey)
deriving DecidableEq, Repr

/-- `RGWDataProvider::RESTConfig`: a per-channel override carrying an
optional endpoint list and an optional credential reference. -/
structure RESTConfig where
  endpoints : Option (List String)
  uid : Option rgw_user
  access_key : Option String
  secret : Option String
deriving DecidableEq, Repr

/-- `RGWDataProvider::SIPConfig`: the sync-index override; the only field the
source reads is its nested REST configuration (`sip_conf->rest_conf`). -/
structure SIPConfig where
  rest_conf : RESTConfig
deriving DecidableEq, Repr

/-- `RGWDataProvider` (a zone record), restricted to the fields
`init_conn` reads. -/
structure RGWDataProvider where
  id : rgw_zone_id
  name : String
  endpoints : List String
  data_access_conf : Option RESTConfig
  sip_conf : Option SIPConfig
deriving DecidableEq, Repr

/-- The user/credential store interface (`RGWUserCtl`), as the two lookups
the source performs.  `none` models a negative return code (`r < 0`). -/
structure RGWUserCtl where
  get_info_by_access_key : String → Option RGWUserInfo
  get_info_by_uid : rgw_user → Option RGWUserInfo

/-- The zone topology service interface (`RGWSI_Zone`), as the queries the
source performs.  `find_zonegroup_by_zone` returns the found zone group's
`api_name` when the membership can be determined.  An empty
`redirect_zone` string means no redirect zone is configured. -/
structure RGWSI_Zone where
  zone_id : rgw_zone_id
  system_key : RGWAccessKey
  zonegroup_id : String
  zonegroup_zones : List RGWDataProvider
  foreign_zones : List RGWDataProvider
  find_zonegroup_by_zone : rgw_zone_id → Option String
  zone_data_notify_set : List rgw_zone_id
  redirect_zone : String
  find_zone_id_by_name : String → Option rgw_zone_id

/-- The services `RGWRemoteCtl` is constructed over. -/
structure Env where
  svc_zone : RGWSI_Zone
  ctl_user : RGWUserCtl

/-- One credential-store call, recorded for lookup accounting. -/
inductive StoreLookup where
  | byAccessKey (k : String)
  | byUid (u : rgw_user)
deriving DecidableEq, Repr

/-- `RGWRemoteCtl::get_access_key`: resolve a credential reference to an
access key.  Returns the resolved key (`none` models `return false`)
together with the list of credential-store lookups performed, in order. -/
def get_access_key (ctl_user : RGWUserCtl) (uid : Option rgw_user)
    (access_key : Option String) (secret : Option String) :
    Option RGWAccessKey × List StoreLookup :=
  match access_key with
  | some ak =>
    match secret with
    | some s => (some { id := ak, key := s }, [])
    | none =>
      match ctl_user.get_info_by_access_key ak with
      | none => (none, [StoreLookup.byAccessKey ak])
      | some info =>
        match info.access_keys with
        | [] => (none, [StoreLookup.byAccessKey ak])
        | k :: _ => (some k.2, [StoreLookup.byAccessKey ak])
  | none =>
    match uid with
    | some u =>
      match ctl_user.get_info_by_uid u with
      | none => (none, [StoreLookup.byUid u])
      | some info =>
        match info.access_keys with
        | [] => (none, [StoreLookup.byUid u])
        | k :: _ => (some k.2, [StoreLookup.byUid u])
    | none => (none, [])

/-- The value an `RGWRESTConn` is constructed from: remote id, endpoint
list, access key, local zone group id, and optional API name.  The wire
behaviour of the connection is external to this core. -/
structure RGWRESTConn where
  remote_id : String
  endpoints : List String
  key : RGWAccessKey
  zonegroup_id : String
  api_name : Option String
deriving DecidableEq, Repr

/-- A connection handle: a fresh allocation id (pointer identity) paired
with the constructed connection value (the pointee). -/
abbrev Handle := Nat × RGWRESTConn

/-- `RGWRemoteCtl::Conns`: the per-zone pair of handles (data channel and
sync-index channel). -/
structure Conns where
  data : Handle
  sip : Handle
deriving DecidableEq, Repr

/-- The mutable state of an `RGWRemoteCtl`: the connection directory, the
owned-allocation list, the allocation counter, and the two notify tables.
The directory and the tables are association lists with `std::map`
update semantics (at most one binding per key). -/
structure CtlState where
  conns_map : List (rgw_zone_id × Conns)
  alloc_conns : List Handle
  next_handle : Nat
  zone_meta_notify_to_map : List (rgw_zone_id × Handle)
  zone_data_notify_to_map : List (rgw_zone_id × Handle)
deriving DecidableEq, Repr

/-- The state of a freshly constructed `RGWRemoteCtl`: every container
empty. -/
def initState : CtlState :=
  { conns_map := [], alloc_conns := [], next_handle := 0,
    zone_meta_notify_to_map := [], zone_data_notify_to_map := [] }

/-- Association-list lookup (`std::map::find`). -/
def alistFind {α : Type} (m : List (String × α)) (k : String) : Option α :=
  match m with
  | [] => none
  | (k₁, v) :: rest => if k₁ = k then some v else alistFind rest k

/-- Association-list update (`std::map::operator[]` followed by
assignment): replace the existing binding, else append a new one. -/
def alistUpdate {α : Type} (m : List (String × α)) (k : String) (v : α) :
    List (String × α) :=
  match m with
  | [] => [(k, v)]
  | (k₁, v₁) :: rest =>
    if k₁ = k then (k, v) :: rest else (k₁, v₁) :: alistUpdate rest k v

/-- Modelled from the spec: `RGWRemoteCtl::add_conn` is declared in
`rgw_remote.h`, which is not part of the provided sources; per the spec's
ownership model the directory "exclusively owns every ConnectionHandle it
creates", registering each in the owned-allocation list `alloc_conns`
that the destructor releases.  `add_conn` allocates a fresh handle for
the constructed connection value, appends it to `alloc_conns`, and
returns it. -/
def add_conn (s : CtlState) (conn : RGWRESTConn) : Handle × CtlState :=
  ((s.next_handle, conn),
   { s with alloc_conns := s.alloc_conns ++ [(s.next_handle, conn)],
            next_handle := s.next_handle + 1 })

/-- `RGWRemoteCtl::create_conn` (zone + channel-override form): resolve
the effective endpoint list (`conf.endpoints.value_or(def_endpoints)`),
resolve credentials, falling back to the local zone's system key when
resolution fails, and construct the connection value. -/
def create_conn (env : Env) (zone_id : rgw_zone_id)
    (def_endpoints : List String) (conf : RESTConfig)
    (api_name : Option String) : RGWRESTConn :=
  let endpoints := conf.endpoints.getD def_endpoints
  let access_key :=
    match (get_access_key env.ctl_user conf.uid conf.access_key conf.secret).1 with
    | some k => k
    | none => env.svc_zone.system_key
  { remote_id := zone_id, endpoints := endpoints, key := access_key,
    zonegroup_id := env.svc_zone.zonegroup_id, api_name := api_name }

/-- The default endpoint list `init_conn` computes: the zone's own
endpoint list, or, when that is empty and the data-access override
carries a non-empty endpoint list, the override's list. -/
def def_endpoints_of (z : RGWDataProvider) : List String :=
  match z.data_access_conf with
  | some conf =>
    match conf.endpoints with
    | some es => if z.endpoints.isEmpty ∧ ¬ es.isEmpty then es else z.endpoints
    | none => z.endpoints
  | none => z.endpoints

/-- `RGWRemoteCtl::init_conn`: build the connection pair for one zone
record and, when `need_notify` is set, register it in the notify
tables. -/
def init_conn (env : Env) (s : CtlState) (z : RGWDataProvider)
    (need_notify : Bool) : CtlState :=
  if z.id = env.svc_zone.zone_id then s
  else
    let defE := def_endpoints_of z
    if defE.isEmpty then s
    else
      let api_name := env.svc_zone.find_zonegroup_by_zone z.id
      let d :=
        match z.data_access_conf with
        | some conf => add_conn s (create_conn env z.id defE conf api_name)
        | none => add_conn s
            { remote_id := z.id, endpoints := z.endpoints,
              key := env.svc_zone.system_key,
              zonegroup_id := env.svc_zone.zonegroup_id,
              api_name := api_name }
      let p :=
        match z.sip_conf with
        | some sc => add_conn d.2 (create_conn env z.id defE sc.rest_conf api_name)
        | none => (d.1, d.2)
      let conns : Conns := { data := d.1, sip := p.1 }
      let s₂ := { p.2 with conns_map := alistUpdate p.2.conns_map z.id conns }
      if need_notify then
        let s₃ := { s₂ with zone_meta_notify_to_map :=
                      alistUpdate s₂.zone_meta_notify_to_map z.id conns.data }
        if z.id ∈ env.svc_zone.zone_data_notify_set then
          { s₃ with zone_data_notify_to_map :=
              alistUpdate s₃.zone_data_notify_to_map z.id conns.data }
        else s₃
      else s₂

/-- `RGWRemoteCtl::init`: build connections for every member zone of the
local zone group (with notify registration) and then for every foreign
zone (without). -/
def init (env : Env) (s : CtlState) : CtlState :=
  let s₁ := env.svc_zone.zonegroup_zones.foldl
    (fun st z => init_conn env st z true) s
  env.svc_zone.foreign_zones.foldl (fun st z => init_conn env st z false) s₁

/-- `RGWRemoteCtl::zone_conns` (by id): directory lookup. -/
def zone_conns (s : CtlState) (zone_id : rgw_zone_id) : Option Conns :=
  alistFind s.conns_map zone_id

/-- `RGWRemoteCtl::zone_conns` (by name): resolve the name to a zone id
via the topology service, then defer to lookup by id. -/
def zone_conns_by_name (env : Env) (s : CtlState) (name : String) :
    Option Conns :=
  match env.svc_zone.find_zone_id_by_name name with
  | none => none
  | some id => zone_conns s id

/-- `RGWRemoteCtl::get_redirect_zone_endpoint`: resolve the configured
redirect zone's reachable endpoint.  `get_url` is the external
connection implementation's endpoint query (`none` models a negative
return code). -/
def get_redirect_zone_endpoint (env : Env)
    (get_url : RGWRESTConn → Option String) (s : CtlState) : Option String :=
  if env.svc_zone.redirect_zone = "" then none
  else
    match alistFind s.conns_map env.svc_zone.redirect_zone with
    | none => none
    | some conns => get_url conns.data.2

/-- The data-channel connection value `init_conn` constructs for zone
`z` (either via the data-access override, or the default built from the
zone's own endpoint list and the local system key). -/
def data_conn_of (env : Env) (z : RGWDataProvider) : RGWRESTConn :=
  match z.data_access_conf with
  | some conf =>
    create_conn env z.id (def_endpoints_of z) conf
      (env.svc_zone.find_zonegroup_by_zone z.id)
  | none =>
    { remote_id := z.id, endpoints := z.endpoints,
      key := env.svc_zone.system_key,
      zonegroup_id := env.svc_zone.zonegroup_id,
      api_name := env.svc_zone.find_zonegroup_by_zone z.id }

/-- The connection pair `init_conn` stores for zone `z` when it processes
it in state `s` (handle ids are drawn from `s.next_handle`). -/
def built_conns (env : Env) (s : CtlState) (z : RGWDataProvider) : Conns :=
  match z.sip_conf with
  | some sc =>
    { data := (s.next_handle, data_conn_of env z),
      sip := (s.next_handle + 1,
              create_conn env z.id (def_endpoints_of z) sc.rest_conf
                (env.svc_zone.find_zonegroup_by_zone z.id)) }
  | none =>
    { data := (s.next_handle, data_conn_of env z),
      sip := (s.next_handle, data_conn_of env z) }

/-- The handles `init_conn` newly registers in the owned-allocation list
when it processes zone `z` in state `s`. -/
def new_allocs (env : Env) (s : CtlState) (z : RGWDataProvider) : List Handle :=
  match z.sip_conf with
  | some _ => [(built_conns env s z).data, (built_conns env s z).sip]
  | none => [(built_conns env s z).data]

/-- The processing list of `init`: the member zones, each with notify
registration, followed by the foreign zones, each without. -/
def initList (env : Env) : List (RGWDataProvider × Bool) :=
  env.svc_zone.zonegroup_zones.map (fun z => (z, true)) ++
    env.svc_zone.foreign_zones.map (fun z => (z, false))

/-- Run `init_conn` over a list of zone records paired with their notify
flags. -/
def runInit (env : Env) (s : CtlState) (L : List (RGWDataProvider × Bool)) :
    CtlState :=
  L.foldl (fun st zb => init_conn env st zb.1 zb.2) s

/-- Ownership invariant of the directory state: every registered handle id
is below the allocation counter, the owned-allocation list holds each
handle id at most once, and every handle reachable from the connection
directory is a registered allocation. -/
def StateInv (s : CtlState) : Prop :=
  (∀ h ∈ s.alloc_conns, h.1 < s.next_handle) ∧
  (s.alloc_conns.map Prod.fst).Nodup ∧
  (∀ i c, alistFind s.conns_map i = some c →
    c.data ∈ s.alloc_conns ∧ c.sip ∈ s.alloc_conns)

/-! Concrete fixtures, used by the witness theorems: a local zone `A`
with member zones `B` (plain, data-notify), `C` (sync-index override)
and `D` (no endpoints), and a foreign zone `F`. -/

/-- Fixture: a stored access key. -/
def wKey : RGWAccessKey := { id := "AKID", key := "KSECRET" }

/-- Fixture: a user owning exactly one access key. -/
def wUser : RGWUserInfo := { user_id := "alice", access_keys := [("AKID", wKey)] }

/-- Fixture: a credential store that knows user `alice` and key `AKID`. -/
def wUserCtl : RGWUserCtl :=
  { get_info_by_access_key := fun k => if k = "AKID" then some wUser else none,
    get_info_by_uid := fun u => if u = "alice" then some wUser else none }

/-- Fixture: a credential store whose every lookup fails. -/
def emptyUserCtl : RGWUserCtl :=
  { get_info_by_access_key := fun _ => none,
    get_info_by_uid := fun _ => none }

/-- Fixture: the local zone's system key. -/
def sysKey : RGWAccessKey := { id := "SYSKEY", key := "SYSSECRET" }

/-- Fixture: the local zone's own record. -/
def zoneA : RGWDataProvider :=
  { id := "A", name := "zone-a", endpoints := ["http://a"],
    data_access_conf := none, sip_conf := none }

/-- Fixture: a plain member zone. -/
def zoneB : RGWDataProvider :=
  { id := "B", name := "zone-b", endpoints := ["http://b"],
    data_access_conf := none, sip_conf := none }

/-- Fixture: the sync-index override of zone `C`. -/
def zoneCsip : RESTConfig :=
  { endpoints := some ["http://c-sip"], uid := none,
    access_key := none, secret := none }

/-- Fixture: a member zone with a sync-index override. -/
def zoneC : RGWDataProvider :=
  { id := "C", name := "zone-c", endpoints := ["http://c"],
    data_access_conf := none, sip_conf := some { rest_conf := zoneCsip } }

/-- Fixture: a member zone with no endpoints at all. -/
def zoneD : RGWDataProvider :=
  { id := "D", name := "zone-d", endpoints := [],
    data_access_conf := none, sip_conf := none }

/-- Fixture: a foreign zone. -/
def zoneF : RGWDataProvider :=
  { id := "F", name := "zone-f", endpoints := ["http://f"],
    data_access_conf := none, sip_conf := none }

/-- Fixture: the topology service for the witness scenario. -/
def wZoneSvc : RGWSI_Zone :=
  { zone_id := "A", system_key := sysKey, zonegroup_id := "zg",
    zonegroup_zones := [zoneA, zoneB, zoneC, zoneD],
    foreign_zones := [zoneF],
    find_zonegroup_by_zone := fun _ => some "default-api",
    zone_data_notify_set := ["B"],
    redirect_zone := "B",
    find_zone_id_by_name := fun n => if n = "zone-b" then some "B" else none }

/-- Fixture: the environment for the witness scenario. -/
def wEnv : Env := { svc_zone := wZoneSvc, ctl_user := wUserCtl }

/-- Fixture: the same topology over a credential store that always
fails. -/
def wEnvFail : Env := { svc_zone := wZoneSvc, ctl_user := emptyUserCtl }

/-- Fixture: the connection value built for zone `B`. -/
def wConnB : RGWRESTConn :=
  { remote_id := "B", endpoints := ["http://b"], key := sysKey,
    zonegroup_id := "zg", api_name := some "default-api" }

/-- Fixture: the connection pair stored for zone `B` (aliased). -/
def wPairB : Conns := { data := (0, wConnB), sip := (0, wConnB) }

/-- Fixture: the data-channel connection value built for zone `C`. -/
def wConnC : RGWRESTConn :=
  { remote_id := "C", endpoints := ["http://c"], key := sysKey,
    zonegroup_id := "zg", api_name := some "default-api" }

/-- Fixture: the sip-channel connection value built for zone `C`. -/
def wConnCsip : RGWRESTConn :=
  { remote_id := "C", endpoints := ["http://c-sip"], key := sysKey,
    zonegroup_id := "zg", api_name := some "default-api" }

/-- Fixture: the connection pair stored for zone `C` (distinct
handles). -/
def wPairC : Conns := { data := (1, wConnC), sip := (2, wConnCsip) }

/-- Fixture: a credential reference that names only a user identity. -/
def wConfUid : RESTConfig :=
  { endpoints := none, uid := some "bob", access_key := none,
    secret := none }

/-- Fixture: a data-access override with a present-but-empty endpoint
list. -/
def c6Conf : RESTConfig :=
  { endpoints := some [], uid := none, access_key := some "AKID",
    secret := some "SK" }

/-- Fixture: a zone whose data-access override has a present-but-empty
endpoint list while the zone default list is non-empty. -/
def zoneE : RGWDataProvider :=
  { id := "E", name := "zone-e", endpoints := ["http://e"],
    data_access_conf := some c6Conf, sip_conf := none }

/-! ### Basic lemmas about association lists -/

/-- Looking up the key just updated yields the new value. -/
theorem alistFind_update_self {α : Type} (m : List (String × α)) (k : String)
    (v : α) : alistFind (alistUpdate m k v) k = some v := by
  induction m with
  | nil => simp [alistFind, alistUpdate]
  | cons hd tl ih =>
    obtain ⟨k₁, v₁⟩ := hd
    by_cases h : k₁ = k
    · simp [alistUpdate, alistFind, h]
    · simp [alistUpdate, alistFind, h, ih]

/-- Updating one key leaves lookups of every other key unchanged. -/
theorem alistFind_update_ne {α : Type} (m : List (String × α)) (k : String)
    (v : α) (i : String) (h : i ≠ k) :
    alistFind (alistUpdate m k v) i = alistFind m i := by
  have hki : ¬ (k = i) := fun he => h he.symm
  induction m with
  | nil => simp [alistFind, alistUpdate, hki]
  | cons hd tl ih =>
    obtain ⟨k₁, v₁⟩ := hd
    by_cases hk : k₁ = k
    · subst hk
      simp [alistUpdate, alistFind, hki]
    · simp only [alistUpdate, if_neg hk, alistFind]
      by_cases hi : k₁ = i
      · simp [hi]
      · simp [hi, ih]

/-- A value found after an update is the new value or was already
bound. -/
theorem alistFind_update_cases {α : Type} (m : List (String × α))
    (k : String) (v : α) (i : String) (c : α)
    (h : alistFind (alistUpdate m k v) i = some c) :
    (i = k ∧ c = v) ∨ alistFind m i = some c := by
  by_cases hik : i = k
  · subst hik
    rw [alistFind_update_self] at h
    exact Or.inl ⟨rfl, (Option.some.inj h).symm⟩
  · rw [alistFind_update_ne m k v i hik] at h
    exact Or.inr h

/-! ### Characterizing one `init_conn` step -/

/-- `init_conn` leaves the state untouched when the zone is the local
zone or its effective endpoint list is empty. -/
theorem init_conn_skip (env : Env) (s : CtlState) (z : RGWDataProvider)
    (b : Bool)
    (h : z.id = env.svc_zone.zone_id ∨ (def_endpoints_of z).isEmpty = true) :
    init_conn env s z b = s := by
  rcases h with h | h
  · simp [init_conn, h]
  · by_cases h1 : z.id = env.svc_zone.zone_id
    · simp [init_conn, h1]
    · simp [init_conn, h1, h]

/-- The full effect of one processed `init_conn` step, as an explicit
state equation. -/
theorem init_conn_eq (env : Env) (s : CtlState) (z : RGWDataProvider)
    (b : Bool) (h1 : ¬ z.id = env.svc_zone.zone_id)
    (h2 : ¬ (def_endpoints_of z).isEmpty = true) :
    init_conn env s z b =
      { conns_map := alistUpdate s.conns_map z.id (built_conns env s z),
        alloc_conns := s.alloc_conns ++ new_allocs env s z,
        next_handle := s.next_handle + (new_allocs env s z).length,
        zone_meta_notify_to_map :=
          if b then
            alistUpdate s.zone_meta_notify_to_map z.id (built_conns env s z).data
          else s.zone_meta_notify_to_map,
        zone_data_notify_to_map :=
          if b ∧ z.id ∈ env.svc_zone.zone_data_notify_set then
            alistUpdate s.zone_data_notify_to_map z.id (built_conns env s z).data
          else s.zone_data_notify_to_map } := by
  cases hda : z.data_access_conf <;> cases hsip : z.sip_conf <;> cases b <;>
    by_cases hm : z.id ∈ env.svc_zone.zone_data_notify_set <;>
      simp [init_conn, built_conns, new_allocs, data_conn_of, add_conn,
        h1, h2, hda, hsip, hm]

/-- One `init_conn` step leaves the three tables unchanged at every
zone id other than the processed zone's. -/
theorem init_conn_find_frame (env : Env) (s : CtlState)
    (z : RGWDataProvider) (b : Bool) (i : rgw_zone_id) (hne : i ≠ z.id) :
    alistFind (init_conn env s z b).conns_map i = alistFind s.conns_map i ∧
    alistFind (init_conn env s z b).zone_meta_notify_to_map i =
      alistFind s.zone_meta_notify_to_map i ∧
    alistFind (init_conn env s z b).zone_data_notify_to_map i =
      alistFind s.zone_data_notify_to_map i := by
  by_cases h1 : z.id = env.svc_zone.zone_id
  · rw [init_conn_skip env s z b (Or.inl h1)]
    exact ⟨rfl, rfl, rfl⟩
  · by_cases h2 : (def_endpoints_of z).isEmpty = true
    · rw [init_conn_skip env s z b (Or.inr h2)]
      exact ⟨rfl, rfl, rfl⟩
    · rw [init_conn_eq env s z b h1 h2]
      refine ⟨alistFind_update_ne _ _ _ _ hne, ?_, ?_⟩
      · cases b <;> simp [alistFind_update_ne _ _ _ _ hne]
      · by_cases hm : z.id ∈ env.svc_zone.zone_data_notify_set <;>
          cases b <;> simp [alistFind_update_ne _ _ _ _ hne, hm]

/-- Unfolding one step of `runInit`. -/
theorem runInit_cons (env : Env) (s : CtlState)
    (zb : RGWDataProvider × Bool) (L : List (RGWDataProvider × Bool)) :
    runInit env s (zb :: L) = runInit env (init_conn env s zb.1 zb.2) L := rfl

/-- `runInit` leaves the three tables unchanged at every zone id that no
processed record carries. -/
theorem runInit_find_frame (env : Env) (L : List (RGWDataProvider × Bool))
    (s : CtlState) (i : rgw_zone_id) (h : ∀ zb ∈ L, zb.1.id ≠ i) :
    alistFind (runInit env s L).conns_map i = alistFind s.conns_map i ∧
    alistFind (runInit env s L).zone_meta_notify_to_map i =
      alistFind s.zone_meta_notify_to_map i ∧
    alistFind (runInit env s L).zone_data_notify_to_map i =
      alistFind s.zone_data_notify_to_map i := by
  induction L generalizing s with
  | nil => exact ⟨rfl, rfl, rfl⟩
  | cons hd tl ih =>
    have hhd : i ≠ hd.1.id := fun he => h hd (List.mem_cons_self hd tl) he.symm
    have hstep := init_conn_find_frame env s hd.1 hd.2 i hhd
    have htl := ih (init_conn env s hd.1 hd.2)
      (fun zb hzb => h zb (List.mem_cons_of_mem hd hzb))
    rw [runInit_cons]
    exact ⟨htl.1.trans hstep.1, htl.2.1.trans hstep.2.1,
           htl.2.2.trans hstep.2.2⟩

/-- If a listed zone is skipped (self, or empty effective endpoints) and
zone ids are unique, `runInit` leaves the three tables unchanged at its
id. -/
theorem runInit_find_skip (env : Env) (L : List (RGWDataProvider × Bool))
    (s : CtlState) (z : RGWDataProvider) (nb : Bool)
    (hmem : (z, nb) ∈ L)
    (hnodup : (L.map (fun zb => zb.1.id)).Nodup)
    (hskip : z.id = env.svc_zone.zone_id ∨ (def_endpoints_of z).isEmpty = true) :
    alistFind (runInit env s L).conns_map z.id = alistFind s.conns_map z.id ∧
    alistFind (runInit env s L).zone_meta_notify_to_map z.id =
      alistFind s.zone_meta_notify_to_map z.id ∧
    alistFind (runInit env s L).zone_data_notify_to_map z.id =
      alistFind s.zone_data_notify_to_map z.id := by
  induction L generalizing s with
  | nil => cases hmem
  | cons hd tl ih =>
    rw [List.map_cons, List.nodup_cons] at hnodup
    rcases List.mem_cons.mp hmem with heq | hmem₁
    · subst heq
      rw [runInit_cons, init_conn_skip env s z nb hskip]
      exact runInit_find_frame env tl s z.id
        (fun zb hzb he => hnodup.1 (he ▸ List.mem_map.mpr ⟨zb, hzb, rfl⟩))
    · have hne : z.id ≠ hd.1.id := fun he =>
        hnodup.1 (he ▸ List.mem_map.mpr ⟨(z, nb), hmem₁, rfl⟩)
      have hstep := init_conn_find_frame env s hd.1 hd.2 z.id hne
      have htl := ih (init_conn env s hd.1 hd.2) hmem₁ hnodup.2
      rw [runInit_cons]
      exact ⟨htl.1.trans hstep.1, htl.2.1.trans hstep.2.1,
             htl.2.2.trans hstep.2.2⟩

/-- If a listed zone is processed and zone ids are unique, `runInit`
stores for it exactly the pair built at some intermediate state, and
registers it in the notify tables exactly as its notify flag and the
data-notify set dictate. -/
theorem runInit_find_processed (env : Env)
    (L : List (RGWDataProvider × Bool)) (s : CtlState)
    (z : RGWDataProvider) (nb : Bool)
    (hmem : (z, nb) ∈ L)
    (hnodup : (L.map (fun zb => zb.1.id)).Nodup)
    (h1 : ¬ z.id = env.svc_zone.zone_id)
    (h2 : ¬ (def_endpoints_of z).isEmpty = true) :
    ∃ st : CtlState,
      alistFind (runInit env s L).conns_map z.id =
        some (built_conns env st z) ∧
      alistFind (runInit env s L).zone_meta_notify_to_map z.id =
        (if nb then some (built_conns env st z).data
         else alistFind s.zone_meta_notify_to_map z.id) ∧
      alistFind (runInit env s L).zone_data_notify_to_map z.id =
        (if nb ∧ z.id ∈ env.svc_zone.zone_data_notify_set then
           some (built_conns env st z).data
         else alistFind s.zone_data_notify_to_map z.id) := by
  induction L generalizing s with
  | nil => cases hmem
  | cons hd tl ih =>
    rw [List.map_cons, List.nodup_cons] at hnodup
    rcases List.mem_cons.mp hmem with heq | hmem₁
    · subst heq
      rw [runInit_cons]
      have hframe := runInit_find_frame env tl (init_conn env s z nb) z.id
        (fun zb hzb he => hnodup.1 (he ▸ List.mem_map.mpr ⟨zb, hzb, rfl⟩))
      refine ⟨s, ?_, ?_, ?_⟩
      · rw [hframe.1, init_conn_eq env s z nb h1 h2]
        simp [alistFind_update_self]
      · rw [hframe.2.1, init_conn_eq env s z nb h1 h2]
        cases nb <;> simp [alistFind_update_self]
      · rw [hframe.2.2, init_conn_eq env s z nb h1 h2]
        by_cases hm : z.id ∈ env.svc_zone.zone_data_notify_set <;>
          cases nb <;> simp [alistFind_update_self, hm]
    · have hne : z.id ≠ hd.1.id := fun he =>
        hnodup.1 (he ▸ List.mem_map.mpr ⟨(z, nb), hmem₁, rfl⟩)
      have hstep := init_conn_find_frame env s hd.1 hd.2 z.id hne
      obtain ⟨st, hc, hmeta, hdata⟩ :=
        ih (init_conn env s hd.1 hd.2) hmem₁ hnodup.2
      refine ⟨st, ?_, ?_, ?_⟩
      · rw [runInit_cons]; exact hc
      · rw [runInit_cons, hmeta, hstep.2.1]
      · rw [runInit_cons, hdata, hstep.2.2]

/-- `init` is `runInit` over the processing list. -/
theorem init_eq_runInit (env : Env) (s : CtlState) :
    init env s = runInit env s (initList env) := by
  simp [init, runInit, initList, List.foldl_append, List.foldl_map]

/-- The ids the processing list carries are the member-zone ids followed
by the foreign-zone ids. -/
theorem initList_ids (env : Env) :
    (initList env).map (fun zb => zb.1.id) =
      (env.svc_zone.zonegroup_zones ++ env.svc_zone.foreign_zones).map
        RGWDataProvider.id := by
  simp [initList, List.map_append, List.map_map]
  rfl

/-- Every member zone is listed with notify registration. -/
theorem mem_initList_of_member (env : Env) (z : RGWDataProvider)
    (h : z ∈ env.svc_zone.zonegroup_zones) : (z, true) ∈ initList env := by
  rw [initList, List.mem_append]
  exact Or.inl (List.mem_map.mpr ⟨z, h, rfl⟩)

/-- Every foreign zone is listed without notify registration. -/
theorem mem_initList_of_foreign (env : Env) (z : RGWDataProvider)
    (h : z ∈ env.svc_zone.foreign_zones) : (z, false) ∈ initList env := by
  rw [initList, List.mem_append]
  exact Or.inr (List.mem_map.mpr ⟨z, h, rfl⟩)

/-! ### The ownership invariant -/

/-- The empty directory satisfies the ownership invariant. -/
theorem stateInv_initState : StateInv initState :=
  ⟨by simp [initState], by simp [initState], by simp [initState, alistFind]⟩

/-- One `init_conn` step preserves the ownership invariant. -/
theorem stateInv_init_conn (env : Env) (s : CtlState) (z : RGWDataProvider)
    (b : Bool) (hs : StateInv s) : StateInv (init_conn env s z b) := by
  by_cases h1 : z.id = env.svc_zone.zone_id
  · rw [init_conn_skip env s z b (Or.inl h1)]; exact hs
  · by_cases h2 : (def_endpoints_of z).isEmpty = true
    · rw [init_conn_skip env s z b (Or.inr h2)]; exact hs
    · rw [init_conn_eq env s z b h1 h2]
      obtain ⟨hbound, hnodup, hmem⟩ := hs
      cases hsip : z.sip_conf with
      | none =>
        refine ⟨?_, ?_, ?_⟩
        · intro h hh
          rcases List.mem_append.mp hh with hh | hh
          · exact lt_of_lt_of_le (hbound h hh) (Nat.le_add_right _ _)
          · simp [new_allocs, built_conns, hsip] at hh
            simp [hh, new_allocs, hsip]
        · simp only [List.map_append]
          refine List.Nodup.append hnodup ?_ ?_
          · simp [new_allocs, built_conns, hsip]
          · intro x hx hx₁
            obtain ⟨h, hh, hfst⟩ := List.mem_map.mp hx
            simp [new_allocs, built_conns, hsip] at hx₁
            have := hbound h hh
            omega
        · intro i c hc
          rcases alistFind_update_cases _ _ _ _ _ hc with ⟨_, hcv⟩ | hold
          · subst hcv
            constructor <;>
              · apply List.mem_append_right
                simp [new_allocs, built_conns, hsip]
          · have := hmem i c hold
            exact ⟨List.mem_append_left _ this.1, List.mem_append_left _ this.2⟩
      | some sc =>
        refine ⟨?_, ?_, ?_⟩
        · intro h hh
          rcases List.mem_append.mp hh with hh | hh
          · exact lt_of_lt_of_le (hbound h hh) (Nat.le_add_right _ _)
          · simp [new_allocs, built_conns, hsip] at hh
            rcases hh with hh | hh <;> simp [hh, new_allocs, hsip]
        · simp only [List.map_append]
          refine List.Nodup.append hnodup ?_ ?_
          · simp [new_allocs, built_conns, hsip]
          · intro x hx hx₁
            obtain ⟨h, hh, hfst⟩ := List.mem_map.mp hx
            simp [new_allocs, built_conns, hsip] at hx₁
            have := hbound h hh
            rcases hx₁ with hx₁ | hx₁ <;> omega
        · intro i c hc
          rcases alistFind_update_cases _ _ _ _ _ hc with ⟨_, hcv⟩ | hold
          · subst hcv
            constructor <;>
              · apply List.mem_append_right
                simp [new_allocs, built_conns, hsip]
          · have := hmem i c hold
            exact ⟨List.mem_append_left _ this.1, List.mem_append_left _ this.2⟩

/-- `runInit` preserves the ownership invariant. -/
theorem stateInv_runInit (env : Env) (L : List (RGWDataProvider × Bool))
    (s : CtlState) (hs : StateInv s) : StateInv (runInit env s L) := by
  induction L generalizing s with
  | nil => exact hs
  | cons hd tl ih =>
    rw [runInit_cons]
    exact ih _ (stateInv_init_conn env s hd.1 hd.2 hs)

/-! ### The claims -/

/-- C1: credential resolution follows a fixed first-match-wins order:
with both an explicit access-key id and a secret supplied, exactly that
pair is returned and no store lookup happens; else with an access-key id
supplied, exactly one store lookup by access-key id happens and on
success the first access key of the found user's key set is returned;
else with a user identity supplied, exactly one store lookup by identity
happens and on success the first access key is returned; else not-found
is returned without any lookup. -/
theorem get_access_key_resolution_order (ctl : RGWUserCtl)
    (uid : Option rgw_user) (ak sec : Option String) :
    (∀ a s, ak = some a → sec = some s →
      get_access_key ctl uid ak sec = (some { id := a, key := s }, [])) ∧
    (∀ a, ak = some a → sec = none →
      (get_access_key ctl uid ak sec).2 = [StoreLookup.byAccessKey a] ∧
      ∀ info, ctl.get_info_by_access_key a = some info →
        (get_access_key ctl uid ak sec).1 =
          info.access_keys.head?.map Prod.snd) ∧
    (∀ u, ak = none → uid = some u →
      (get_access_key ctl uid ak sec).2 = [StoreLookup.byUid u] ∧
      ∀ info, ctl.get_info_by_uid u = some info →
        (get_access_key ctl uid ak sec).1 =
          info.access_keys.head?.map Prod.snd) ∧
    (ak = none → uid = none → get_access_key ctl uid ak sec = (none, [])) := by
  refine ⟨?_, ?_, ?_, ?_⟩
  · rintro a s rfl rfl; rfl
  · rintro a rfl rfl
    refine ⟨?_, ?_⟩
    · cases h : ctl.get_info_by_access_key a with
      | none => simp [get_access_key, h]
      | some info =>
        cases hk : info.access_keys <;> simp [get_access_key, h, hk]
    · intro info h
      cases hk : info.access_keys <;> simp [get_access_key, h, hk]
  · rintro u rfl rfl
    refine ⟨?_, ?_⟩
    · cases h : ctl.get_info_by_uid u with
      | none => simp [get_access_key, h]
      | some info =>
        cases hk : info.access_keys <;> simp [get_access_key, h, hk]
    · intro info h
      cases hk : info.access_keys <;> simp [get_access_key, h, hk]
  · rintro rfl rfl; rfl

/-- Witness for C1: all four resolution branches at the fixture
credential store, at concrete inputs. -/
theorem get_access_key_resolution_order_witness :
    get_access_key wUserCtl (some "alice") (some "AKID") (some "S2") =
      (some { id := "AKID", key := "S2" }, []) ∧
    (get_access_key wUserCtl none (some "AKID") none).2 =
      [StoreLookup.byAccessKey "AKID"] ∧
    (get_access_key wUserCtl none (some "AKID") none).1 = some wKey ∧
    (get_access_key wUserCtl (some "alice") none none).2 =
      [StoreLookup.byUid "alice"] ∧
    (get_access_key wUserCtl (some "alice") none none).1 = some wKey ∧
    get_access_key wUserCtl none none none = (none, []) := by
  have h₁ := (get_access_key_resolution_order wUserCtl (some "alice")
    (some "AKID") (some "S2")).1 "AKID" "S2" rfl rfl
  have h₂ := (get_access_key_resolution_order wUserCtl none
    (some "AKID") none).2.1 "AKID" rfl rfl
  have h₃ := (get_access_key_resolution_order wUserCtl (some "alice")
    none none).2.2.1 "alice" rfl rfl
  have h₄ := (get_access_key_resolution_order wUserCtl none none
    none).2.2.2 rfl rfl
  exact ⟨h₁, h₂.1, (h₂.2 wUser (by decide)).trans (by decide),
         h₃.1, (h₃.2 wUser (by decide)).trans (by decide), h₄⟩

/-- C2: credential failure is never fatal: whenever credential
resolution returns not-found, `create_conn` still builds the connection
— with the resolved endpoint list and the local zone's system key as the
access key — and propagates no error (it is a total function into
connection values). -/
theorem create_conn_credential_fallback (env : Env)
    (zone_id : rgw_zone_id) (defE : List String) (conf : RESTConfig)
    (api : Option String)
    (h : (get_access_key env.ctl_user conf.uid conf.access_key
            conf.secret).1 = none) :
    create_conn env zone_id defE conf api =
      { remote_id := zone_id, endpoints := conf.endpoints.getD defE,
        key := env.svc_zone.system_key,
        zonegroup_id := env.svc_zone.zonegroup_id, api_name := api } := by
  simp [create_conn, h]

/-- Witness for C2: the store lookup for user `bob` fails, yet the
connection is built, carrying the system key. -/
theorem create_conn_credential_fallback_witness :
    create_conn wEnvFail "B" ["http://b"] wConfUid none =
      { remote_id := "B", endpoints := ["http://b"], key := sysKey,
        zonegroup_id := "zg", api_name := none } :=
  (create_conn_credential_fallback wEnvFail "B" ["http://b"] wConfUid none
    (by decide)).trans (by decide)

/-- C10: with only a secret supplied — no access-key id and no user
identity — the resolver returns not-found with no store lookup at all,
silently ignoring the secret, and the caller's fallback therefore gives
the connection the local zone's system key. -/
theorem get_access_key_secret_only (ctl : RGWUserCtl) (env : Env)
    (zone_id : rgw_zone_id) (defE : List String)
    (eps : Option (List String)) (api : Option String) (s : String) :
    get_access_key ctl none none (some s) = (none, []) ∧
    (create_conn env zone_id defE
      { endpoints := eps, uid := none, access_key := none,
        secret := some s } api).key = env.svc_zone.system_key :=
  ⟨rfl, rfl⟩

/-- C8: processing the local zone itself is a no-op: `init_conn` returns
the state unchanged — no directory entry, no allocation, and no notify
registration. -/
theorem init_conn_self_noop (env : Env) (s : CtlState)
    (z : RGWDataProvider) (b : Bool) (h : z.id = env.svc_zone.zone_id) :
    init_conn env s z b = s := by
  simp [init_conn, h]

/-- Witness for C8: the local zone record `zoneA` is skipped. -/
theorem init_conn_self_noop_witness :
    init_conn wEnv initState zoneA true = initState :=
  init_conn_self_noop wEnv initState zoneA true (by decide)

/-- C7: `get_redirect_zone_endpoint` is a total function that returns
absent in exactly three situations — no redirect zone configured, the
configured redirect zone id absent from the connection directory, or the
resolved connection unable to report an endpoint — and otherwise returns
that zone's reachable endpoint. -/
theorem get_redirect_zone_endpoint_cases (env : Env)
    (gu : RGWRESTConn → Option String) (s : CtlState) :
    (get_redirect_zone_endpoint env gu s = none ↔
      env.svc_zone.redirect_zone = "" ∨
      alistFind s.conns_map env.svc_zone.redirect_zone = none ∨
      ∃ c, alistFind s.conns_map env.svc_zone.redirect_zone = some c ∧
        gu c.data.2 = none) ∧
    (∀ e, get_redirect_zone_endpoint env gu s = some e ↔
      (¬ env.svc_zone.redirect_zone = "" ∧
       ∃ c, alistFind s.conns_map env.svc_zone.redirect_zone = some c ∧
         gu c.data.2 = some e)) := by
  by_cases h : env.svc_zone.redirect_zone = ""
  · simp [get_redirect_zone_endpoint, h]
  · cases hf : alistFind s.conns_map env.svc_zone.redirect_zone with
    | none => simp [get_redirect_zone_endpoint, h, hf]
    | some c =>
      cases hg : gu c.data.2 with
      | none => simp [get_redirect_zone_endpoint, h, hf, hg]
      | some e => simp [get_redirect_zone_endpoint, h, hf, hg]

/-- C6 counterexample: with the zone default list `["http://b"]` and an
override endpoint list that is present but empty, the claim predicts the
default list, but `create_conn` gives the connection the empty override
list (`std::optional::value_or` tests presence, not non-emptiness). -/
theorem create_conn_empty_override_counterexample :
    c6Conf.endpoints = some [] ∧
    (create_conn wEnv "B" ["http://b"] c6Conf none).endpoints = [] ∧
    ¬ (create_conn wEnv "B" ["http://b"] c6Conf none).endpoints =
        ["http://b"] := by
  decide

/-- C6 (amended): for a processed zone with a data-access override, the
stored data connection's endpoint list is the override's list whenever
that list is present — even when it is empty — and only an absent
override list falls back to the zone's default endpoint list. -/
theorem init_conn_effective_endpoints (env : Env) (s : CtlState)
    (z : RGWDataProvider) (b : Bool) (conf : RESTConfig)
    (h1 : ¬ z.id = env.svc_zone.zone_id)
    (h2 : ¬ (def_endpoints_of z).isEmpty = true)
    (hc : z.data_access_conf = some conf) :
    ∃ c, alistFind (init_conn env s z b).conns_map z.id = some c ∧
      c.data.2.endpoints =
        (match conf.endpoints with
         | some es => es
         | none => def_endpoints_of z) := by
  refine ⟨built_conns env s z, ?_, ?_⟩
  · rw [init_conn_eq env s z b h1 h2]
    simp [alistFind_update_self]
  · cases hsip : z.sip_conf <;>
      cases he : conf.endpoints <;>
        simp [built_conns, data_conn_of, hsip, hc, create_conn,
          Option.getD, he]

/-- Witness for C6 (amended): zone `E` carries an override with a
present-but-empty endpoint list; the stored data connection's endpoint
list is empty even though the zone default is non-empty. -/
theorem init_conn_effective_endpoints_witness :
    ∃ c, alistFind (init_conn wEnv initState zoneE true).conns_map
        zoneE.id = some c ∧
      c.data.2.endpoints = [] := by
  obtain ⟨c, hc, he⟩ := init_conn_effective_endpoints wEnv initState zoneE
    true c6Conf (by decide) (by decide) (by decide)
  exact ⟨c, hc, he.trans (by decide)⟩

/-- C3: after `init`, a zone with no sync-index override stores a sip
handle identity-equal to its data handle (the very same handle, not a
copy), while a zone with a sync-index override stores a sip handle with
a distinct allocation id. -/
theorem init_sip_aliasing (env : Env)
    (hnodup : ((env.svc_zone.zonegroup_zones ++
        env.svc_zone.foreign_zones).map RGWDataProvider.id).Nodup)
    (z : RGWDataProvider)
    (hz : z ∈ env.svc_zone.zonegroup_zones ∨
      z ∈ env.svc_zone.foreign_zones)
    (c : Conns)
    (hfind : alistFind (init env initState).conns_map z.id = some c) :
    (z.sip_conf = none → c.sip = c.data) ∧
    (∀ sc, z.sip_conf = some sc → ¬ c.sip.1 = c.data.1) := by
  rw [init_eq_runInit] at hfind
  have hnodup₁ : ((initList env).map (fun zb => zb.1.id)).Nodup := by
    rw [initList_ids]; exact hnodup
  obtain ⟨nb, hmem⟩ : ∃ nb, (z, nb) ∈ initList env := by
    rcases hz with h | h
    · exact ⟨true, mem_initList_of_member env z h⟩
    · exact ⟨false, mem_initList_of_foreign env z h⟩
  by_cases h1 : z.id = env.svc_zone.zone_id
  · rw [(runInit_find_skip env (initList env) initState z nb hmem hnodup₁
      (Or.inl h1)).1] at hfind
    simp [initState, alistFind] at hfind
  · by_cases h2 : (def_endpoints_of z).isEmpty = true
    · rw [(runInit_find_skip env (initList env) initState z nb hmem hnodup₁
        (Or.inr h2)).1] at hfind
      simp [initState, alistFind] at hfind
    · obtain ⟨st, hc, -, -⟩ := runInit_find_processed env (initList env)
        initState z nb hmem hnodup₁ h1 h2
      obtain rfl : built_conns env st z = c :=
        Option.some.inj (hc.symm.trans hfind)
      constructor
      · intro hsip; simp [built_conns, hsip]
      · intro sc hsip; simp [built_conns, hsip]

/-- Witness for C3: in the fixture directory zone `B` (no sync-index
override) stores an aliased pair; zone `C` (override) stores distinct
handles. -/
theorem init_sip_aliasing_witness :
    wPairB.sip = wPairB.data ∧ ¬ wPairC.sip.1 = wPairC.data.1 := by
  have hB := (init_sip_aliasing wEnv (by decide) zoneB
    (Or.inl (by decide)) wPairB (by decide)).1 (by decide)
  have hC := (init_sip_aliasing wEnv (by decide) zoneC
    (Or.inl (by decide)) wPairC (by decide)).2
    { rest_conf := zoneCsip } (by decide)
  exact ⟨hB, hC⟩

/-- C4: after `init`, every member zone of the local zone group that
received a directory entry appears in the metadata-notify table — mapped
to its data handle — unconditionally, and in the data-notify table if
and only if the topology service's data-notify set contains its id; no
foreign zone appears in either notify table. -/
theorem init_notify_tables (env : Env)
    (hnodup : ((env.svc_zone.zonegroup_zones ++
        env.svc_zone.foreign_zones).map RGWDataProvider.id).Nodup) :
    (∀ z ∈ env.svc_zone.zonegroup_zones, ∀ c,
      alistFind (init env initState).conns_map z.id = some c →
      alistFind (init env initState).zone_meta_notify_to_map z.id =
        some c.data ∧
      (z.id ∈ env.svc_zone.zone_data_notify_set →
        alistFind (init env initState).zone_data_notify_to_map z.id =
          some c.data) ∧
      (¬ z.id ∈ env.svc_zone.zone_data_notify_set →
        alistFind (init env initState).zone_data_notify_to_map z.id =
          none)) ∧
    (∀ z ∈ env.svc_zone.foreign_zones,
      alistFind (init env initState).zone_meta_notify_to_map z.id = none ∧
      alistFind (init env initState).zone_data_notify_to_map z.id =
        none) := by
  have hnodup₁ : ((initList env).map (fun zb => zb.1.id)).Nodup := by
    rw [initList_ids]; exact hnodup
  constructor
  · intro z hz c hfind
    rw [init_eq_runInit] at hfind ⊢
    have hmem := mem_initList_of_member env z hz
    by_cases h1 : z.id = env.svc_zone.zone_id
    · rw [(runInit_find_skip env (initList env) initState z true hmem
        hnodup₁ (Or.inl h1)).1] at hfind
      simp [initState, alistFind] at hfind
    · by_cases h2 : (def_endpoints_of z).isEmpty = true
      · rw [(runInit_find_skip env (initList env) initState z true hmem
          hnodup₁ (Or.inr h2)).1] at hfind
        simp [initState, alistFind] at hfind
      · obtain ⟨st, hc, hmeta, hdata⟩ := runInit_find_processed env
          (initList env) initState z true hmem hnodup₁ h1 h2
        obtain rfl : built_conns env st z = c :=
          Option.some.inj (hc.symm.trans hfind)
        refine ⟨?_, ?_, ?_⟩
        · rw [hmeta]; simp
        · intro hm; rw [hdata]; simp [hm]
        · intro hm; rw [hdata]; simp [hm, initState, alistFind]
  · intro z hz
    rw [init_eq_runInit]
    have hmem := mem_initList_of_foreign env z hz
    by_cases h1 : z.id = env.svc_zone.zone_id
    · have h := runInit_find_skip env (initList env) initState z false hmem
        hnodup₁ (Or.inl h1)
      rw [h.2.1, h.2.2]
      exact ⟨rfl, rfl⟩
    · by_cases h2 : (def_endpoints_of z).isEmpty = true
      · have h := runInit_find_skip env (initList env) initState z false
          hmem hnodup₁ (Or.inr h2)
        rw [h.2.1, h.2.2]
        exact ⟨rfl, rfl⟩
      · obtain ⟨st, -, hmeta, hdata⟩ := runInit_find_processed env
          (initList env) initState z false hmem hnodup₁ h1 h2
        rw [hmeta, hdata]
        simp [initState, alistFind]

/-- Witness for C4: in the fixture directory, member zone `B`
(data-notify marked) is in both tables, member zone `C` only in the
metadata table, and foreign zone `F` in neither. -/
theorem init_notify_tables_witness :
    alistFind (init wEnv initState).zone_meta_notify_to_map "B" =
      some wPairB.data ∧
    alistFind (init wEnv initState).zone_data_notify_to_map "B" =
      some wPairB.data ∧
    alistFind (init wEnv initState).zone_meta_notify_to_map "C" =
      some wPairC.data ∧
    alistFind (init wEnv initState).zone_data_notify_to_map "C" = none ∧
    alistFind (init wEnv initState).zone_meta_notify_to_map "F" = none ∧
    alistFind (init wEnv initState).zone_data_notify_to_map "F" =
      none := by
  have h := init_notify_tables wEnv (by decide)
  have hB := h.1 zoneB (by decide) wPairB (by decide)
  have hC := h.1 zoneC (by decide) wPairC (by decide)
  have hF := h.2 zoneF (by decide)
  exact ⟨hB.1, hB.2.1 (by decide), hC.1, hC.2.2 (by decide), hF.1, hF.2⟩

/-- C5: a zone whose effective endpoint list is empty even after the
data-access fallback is soft-skipped: `init_conn` leaves the whole state
unchanged (no connection is created, no error is raised), and after
`init` the zone has no entry in the connection directory, so lookups for
it return absent. -/
theorem init_empty_endpoints_soft_skip (env : Env)
    (hnodup : ((env.svc_zone.zonegroup_zones ++
        env.svc_zone.foreign_zones).map RGWDataProvider.id).Nodup)
    (z : RGWDataProvider)
    (hz : z ∈ env.svc_zone.zonegroup_zones ∨
      z ∈ env.svc_zone.foreign_zones)
    (hempty : (def_endpoints_of z).isEmpty = true) :
    (∀ s b, init_conn env s z b = s) ∧
    zone_conns (init env initState) z.id = none := by
  have hnodup₁ : ((initList env).map (fun zb => zb.1.id)).Nodup := by
    rw [initList_ids]; exact hnodup
  obtain ⟨nb, hmem⟩ : ∃ nb, (z, nb) ∈ initList env := by
    rcases hz with h | h
    · exact ⟨true, mem_initList_of_member env z h⟩
    · exact ⟨false, mem_initList_of_foreign env z h⟩
  refine ⟨fun s b => init_conn_skip env s z b (Or.inr hempty), ?_⟩
  show alistFind (init env initState).conns_map z.id = none
  rw [init_eq_runInit,
    (runInit_find_skip env (initList env) initState z nb hmem hnodup₁
      (Or.inr hempty)).1]
  rfl

/-- Witness for C5: fixture zone `D` has no endpoints; processing it is
the identity and it is absent from the directory after `init`. -/
theorem init_empty_endpoints_soft_skip_witness :
    init_conn wEnv initState zoneD true = initState ∧
    zone_conns (init wEnv initState) zoneD.id = none := by
  have h := init_empty_endpoints_soft_skip wEnv (by decide) zoneD
    (Or.inl (by decide)) (by decide)
  exact ⟨h.1 initState true, h.2⟩

/-- C9: every connection handle the directory creates is registered
exactly once in the owned-allocation list: after `init`, the registered
allocation ids are pairwise distinct and each occurs exactly once — in
particular a handle aliased into both slots of a pair is registered only
once, so the destructor, which deletes each entry of `alloc_conns` once,
releases every distinct handle exactly once and never double-frees — and
every handle reachable from the connection directory is registered. -/
theorem init_alloc_registered_once (env : Env) :
    ((init env initState).alloc_conns.map Prod.fst).Nodup ∧
    (∀ i c, alistFind (init env initState).conns_map i = some c →
      c.data ∈ (init env initState).alloc_conns ∧
      c.sip ∈ (init env initState).alloc_conns) ∧
    (∀ h ∈ (init env initState).alloc_conns,
      ((init env initState).alloc_conns.map Prod.fst).count h.1 = 1) := by
  have hinv : StateInv (init env initState) := by
    rw [init_eq_runInit]
    exact stateInv_runInit env (initList env) initState stateInv_initState
  refine ⟨hinv.2.1, hinv.2.2, ?_⟩
  intro h hh
  exact List.count_eq_one_of_mem hinv.2.1
    (List.mem_map_of_mem Prod.fst hh)

/-- Witness for C9: in the fixture directory the registered allocation
ids are distinct and both handles of zone `C`'s pair are registered. -/
theorem init_alloc_registered_once_witness :
    ((init wEnv initState).alloc_conns.map Prod.fst).Nodup ∧
    wPairC.data ∈ (init wEnv initState).alloc_conns ∧
    wPairC.sip ∈ (init wEnv initState).alloc_conns := by
  have h := init_alloc_registered_once wEnv
  have hC := h.2.1 "C" wPairC (by decide)
  exact ⟨h.1, hC.1, hC.2⟩

end RGWRemote
